import Mathlib

/-!
Shallow embedding of `src/backend/qa_logic.py` from the
smart-doc-assistant repository, together with theorems settling the
frozen claims about its behaviour.

The completion transport (the OpenAI client call
`client.chat.completions.create`) is modelled as a function from the
call index (0-based count of underlying calls made so far in the
operation) to either a success carrying the returned completion text or
a failure carrying the exception message string.  Python exceptions are
modelled as `Except String` values: the error payload is `str(e)`, which
is all the code ever inspects.  `time.sleep` calls are recorded as a
list of slept durations (in seconds, all integral in the code).
-/

namespace QaLogic

/-- A completion transport: call index ↦ failure message or completion text. -/
def Transport : Type := Nat → Except String String

/-- Python's `pat in s` substring test: `pat` is a contiguous substring of `s`. -/
def strContains (s pat : String) : Bool :=
  s.data.tails.any (fun t => pat.data.isPrefixOf t)

/-- Python whitespace for `str.strip()` / `str.isspace()` (ASCII range, which
is all the code's strings use). -/
def isSpaceChar (c : Char) : Bool :=
  c = ' ' || c = '\t' || c = '\n' || c = '\r' || c = '\x0b' || c = '\x0c'

/-- Python `s.strip()`: remove leading and trailing whitespace. -/
def pyStrip (s : String) : String :=
  String.mk (((s.data.dropWhile isSpaceChar).reverse.dropWhile isSpaceChar).reverse)

/-- Python `s.lower()` (ASCII case mapping, which is all the code needs). -/
def pyLower (s : String) : String :=
  String.mk (s.data.map Char.toLower)

/-- Split a character list at every occurrence of `c` (Python
`s.split(c)` for a single-character separator). -/
def splitOnChar (c : Char) : List Char → List (List Char)
  | [] => [[]]
  | x :: xs =>
    let r := splitOnChar c xs
    if x = c then [] :: r
    else
      match r with
      | [] => [[x]]
      | h :: t => (x :: h) :: t

/-- Python `s.split('\n')`. -/
def pySplitLines (s : String) : List String :=
  (splitOnChar '\n' s.data).map String.mk

/-- Python `s[:n]`: the first `n` characters of `s`. -/
def pyTake (s : String) (n : Nat) : String :=
  String.mk (s.data.take n)

/-- Whether `s` starts with the character `c` (Python `s.startswith(c)` for a
single-character prefix). -/
def firstCharIs (c : Char) (s : String) : Bool :=
  match s.data with
  | [] => false
  | x :: _ => x = c

/-- The quota test of `safe_chat_completion_create` (qa_logic.py line 34):
`"insufficient_quota" in error_msg or "exceeded your current quota" in error_msg`
where `error_msg = str(e).lower()`. -/
def lowerHasQuota (m : String) : Bool :=
  strContains (pyLower m) "insufficient_quota" ||
    strContains (pyLower m) "exceeded your current quota"

/-- The rate-limit test of `safe_chat_completion_create` (line 45):
`"rate_limit" in error_msg or "rate limit" in error_msg` on the lowered message. -/
def lowerHasRateLimit (m : String) : Bool :=
  strContains (pyLower m) "rate_limit" || strContains (pyLower m) "rate limit"

/-- The fixed message raised by `safe_chat_completion_create` when it detects a
quota error (qa_logic.py lines 36-42). -/
def quotaRaiseMsg : String :=
  "🚫 OpenAI API quota exceeded. Please:\n" ++
  "1. Check your OpenAI billing: https://platform.openai.com/account/billing\n" ++
  "2. Add payment method or upgrade your plan\n" ++
  "3. Or try again later if on free tier\n" ++
  "The app will use fallback responses until this is resolved."

/-- The message raised when the retry loop falls through (qa_logic.py line 58);
this raise site is reached exactly when the final attempt hit the rate-limit
branch. -/
def failedRetriesMsg : String := "❌ Failed after 3 retries due to API errors."

/-- Outcome of one invocation of `safe_chat_completion_create`: the returned
value or raised exception message, the number of underlying transport calls
made, and the list of sleep durations (seconds) performed. -/
structure SafeResult where
  result : Except String String
  calls : Nat
  sleeps : List Nat
deriving Repr

/-- The body of the `for attempt in range(3)` loop of
`safe_chat_completion_create` (qa_logic.py lines 27-58).  `attempts` is the
list of remaining loop indices (initially `[0, 1, 2]`), `start` the transport
call index at which this invocation began, `calls` and `sleeps` the
accumulators.  Each iteration: a successful call returns its value; otherwise
the lowered message is tested for quota (raise the fixed quota message),
then for rate limit (sleep `2 ^ attempt` and retry), then `attempt == 2`
re-raises the original error, else sleep 1 second and retry.  Falling off the
loop raises `failedRetriesMsg`. -/
def safeGo (transport : Transport) (start : Nat) :
    Nat → List Nat → List Nat → SafeResult
  | calls, sleeps, [] => ⟨.error failedRetriesMsg, calls, sleeps⟩
  | calls, sleeps, attempt :: rest =>
    match transport (start + calls) with
    | .ok v => ⟨.ok v, calls + 1, sleeps⟩
    | .error m =>
      if lowerHasQuota m then
        ⟨.error quotaRaiseMsg, calls + 1, sleeps⟩
      else if lowerHasRateLimit m then
        safeGo transport start (calls + 1) (sleeps ++ [2 ^ attempt]) rest
      else if attempt == 2 then
        ⟨.error m, calls + 1, sleeps⟩
      else
        safeGo transport start (calls + 1) (sleeps ++ [1]) rest

/-- `safe_chat_completion_create` (qa_logic.py lines 26-58): run the retry
loop with attempt indices 0, 1, 2, starting at transport call index `start`. -/
def safe_chat_completion_create (transport : Transport) (start : Nat) : SafeResult :=
  safeGo transport start 0 [] [0, 1, 2]

/-- The quota test performed by the callers of the wrapper
(qa_logic.py lines 90, 134, 197, 253): `"quota exceeded" in error_msg or
"insufficient_quota" in error_msg`, on the un-lowered `str(e)`. -/
def callerQuotaCheck (m : String) : Bool :=
  strContains m "quota exceeded" || strContains m "insufficient_quota"

/-- Python `document_text[:4000] if len(document_text) > 4000 else document_text`
(qa_logic.py lines 65, 106, 150, 215). -/
def limitText (s : String) : String :=
  if s.length > 4000 then pyTake s 4000 else s

/-- Python `line.split('.', 1)[-1]`: everything after the first `'.'`, or the
whole string when it has no `'.'`. -/
def afterFirstDot (s : String) : String :=
  if s.data.contains '.' then
    String.mk (s.data.dropWhile (fun c => c ≠ '.')).tail
  else s

/-- Whether the first character of `s` is a digit (Python `line[0].isdigit()`,
only evaluated on non-empty lines). -/
def firstIsDigit (s : String) : Bool :=
  match s.data with
  | [] => false
  | c :: _ => c.isDigit

/-- The question-extraction loop of `generate_challenge_questions`
(qa_logic.py lines 170-177): split the raw model text on newlines, strip each
line, keep lines that are non-empty and start with a digit or with `Q`, take
the text after the first `'.'` (the whole line when there is none), strip it,
and keep it when non-empty. -/
def parseChallengeLines (raw : String) : List String :=
  (pySplitLines raw).foldl
    (fun acc l =>
      let line := pyStrip l
      if line ≠ "" ∧ (firstIsDigit line || firstCharIs 'Q' line) = true then
        let cq := pyStrip (afterFirstDot line)
        if cq ≠ "" then acc ++ [cq] else acc
      else acc)
    []

/-- The padding questions appended when fewer than 3 were parsed
(qa_logic.py lines 182-186). -/
def challengePad : List String :=
  ["What are the main points discussed in this document?",
   "What conclusions can you draw from the information presented?",
   "How would you summarize the key findings or arguments?"]

/-- The fallback questions returned on a quota-classified failure
(qa_logic.py lines 198-202). -/
def challengeFallbackQuota : List String :=
  ["⚠️ What are the main topics covered in this document? (AI generation unavailable - quota exceeded)",
   "⚠️ What are the key conclusions or findings mentioned? (Please check OpenAI billing)",
   "⚠️ What questions does this document raise for further research? (Fallback question)"]

/-- The fallback questions returned on any other failure
(qa_logic.py lines 204-208). -/
def challengeFallbackGeneric : List String :=
  ["What are the main topics covered in this document?",
   "What are the key conclusions or findings?",
   "What questions does this document raise for further research?"]

/-- `generate_challenge_questions` (qa_logic.py lines 145-208).  On success
the completion text is stripped, the extraction loop runs, the list is cut to
at most 3, and when fewer than 3 were found the padding questions are appended
and the list cut to 3 again.  On failure, the quota check on `str(e)` selects
between the quota fallback list and the generic fallback list.  The document
text only enters the prompt, which the transport stub does not observe. -/
def generate_challenge_questions (transport : Transport) (documentText : String) :
    List String :=
  match (safe_chat_completion_create transport 0).result with
  | .ok v =>
    let questions := (parseChallengeLines (pyStrip v)).take 3
    if questions.length < 3 then (questions ++ challengePad).take 3 else questions
  | .error m =>
    if callerQuotaCheck m then challengeFallbackQuota else challengeFallbackGeneric

/-- The fallback summary returned on a quota-classified failure
(qa_logic.py lines 91-97). -/
def summaryQuotaFallback (documentText : String) : String :=
  "⚠️ AI Summary unavailable (OpenAI quota exceeded)\n\n" ++
  "📄 FALLBACK SUMMARY:\n" ++
  "Document contains " ++ toString documentText.length ++ " characters. " ++
  "Here's the beginning:\n\n" ++ pyTake documentText 300 ++ "...\n\n" ++
  "💡 To get AI-powered summaries, please check your OpenAI billing settings."

/-- `generate_summary` (qa_logic.py lines 60-99): on success the completion
text stripped; on a quota-classified failure the fallback summary; on any
other failure the string `"Error generating summary: "` followed by the
exception message. -/
def generate_summary (transport : Transport) (documentText : String) : String :=
  match (safe_chat_completion_create transport 0).result with
  | .ok v => pyStrip v
  | .error m =>
    if callerQuotaCheck m then summaryQuotaFallback documentText
    else "Error generating summary: " ++ m

/-- The fallback answer returned on a quota-classified failure
(qa_logic.py lines 135-141). -/
def answerQuotaFallback (userQuestion : String) : String :=
  "⚠️ AI Q&A unavailable (OpenAI quota exceeded)\n\n" ++
  "📝 FALLBACK RESPONSE:\n" ++
  "I cannot provide an AI-powered answer to: '" ++ userQuestion ++ "'\n\n" ++
  "You can manually search the document for relevant information. " ++
  "To restore AI functionality, please check your OpenAI billing settings."

/-- `answer_question` (qa_logic.py lines 101-143): on success the completion
text stripped; on a quota-classified failure the fallback answer; on any other
failure the string `"Error processing your question: "` plus the message. -/
def answer_question (transport : Transport) (documentText userQuestion : String) :
    String :=
  match (safe_chat_completion_create transport 0).result with
  | .ok v => pyStrip v
  | .error m =>
    if callerQuotaCheck m then answerQuotaFallback userQuestion
    else "Error processing your question: " ++ m

/-- One `{question, answer}` pair of the evaluation request. -/
structure QAPair where
  question : String
  answer : String
deriving Repr

/-- One feedback record `{question, user_answer, evaluation}` produced by
`evaluate_user_answers` (qa_logic.py lines 222-226, 263-267). -/
structure Feedback where
  question : String
  user_answer : String
  evaluation : String
deriving Repr

/-- The record appended for a pair with an empty or whitespace-only answer
(qa_logic.py lines 222-226). -/
def noAnswerFeedback (q : String) : Feedback :=
  ⟨q, "No answer provided", "Please provide an answer to receive feedback."⟩

/-- The evaluation text substituted on a quota-classified failure for one pair
(qa_logic.py lines 254-259). -/
def evalQuotaFallback (userAnswer : String) : String :=
  "⚠️ AI evaluation unavailable (OpenAI quota exceeded)\n\n" ++
  "Your answer: '" ++ userAnswer ++ "'\n\n" ++
  "Manual review suggested: Compare your answer with the document content. " ++
  "For AI-powered feedback, please resolve the OpenAI billing issue."

/-- One iteration of the `for pair in qa_pairs` loop of
`evaluate_user_answers` (qa_logic.py lines 217-267).  `start` is the transport
call index at entry; the returned `Nat` is the call index after the iteration.
A pair whose answer strips to empty is answered by the fixed record without
touching the transport; otherwise `safe_chat_completion_create` runs and its
outcome is mapped to the evaluation text (stripped completion, quota fallback,
or `"Error evaluating this answer: "` plus the message). -/
def evalPair (transport : Transport) (start : Nat) (pair : QAPair) :
    Feedback × Nat :=
  if pyStrip pair.answer = "" then
    (noAnswerFeedback pair.question, start)
  else
    let r := safe_chat_completion_create transport start
    let evaluation :=
      match r.result with
      | .ok v => pyStrip v
      | .error m =>
        if callerQuotaCheck m then evalQuotaFallback pair.answer
        else "Error evaluating this answer: " ++ m
    (⟨pair.question, pair.answer, evaluation⟩, start + r.calls)

/-- The whole `for pair in qa_pairs` loop, threading the transport call
index. -/
def evalGo (transport : Transport) (start : Nat) : List QAPair → List Feedback
  | [] => []
  | p :: ps =>
    (evalPair transport start p).1 :: evalGo transport (evalPair transport start p).2 ps

/-- `evaluate_user_answers` (qa_logic.py lines 210-295).  With well-typed
pairs nothing inside the loop can raise (every transport failure is handled in
the inner `try`), so the outer `except` of the Python code is dead and the
function is the loop itself. -/
def evaluate_user_answers (transport : Transport) (pairs : List QAPair) :
    List Feedback :=
  evalGo transport 0 pairs

/-! ### Concrete transport stubs used by counterexamples and witnesses -/

/-- A stub whose every call raises an error with message `"quota exceeded"`. -/
def alwaysQuotaWordsStub : Transport := fun _ => .error "quota exceeded"

/-- A stub whose every call raises `"insufficient_quota"`. -/
def insufficientQuotaStub : Transport := fun _ => .error "insufficient_quota"

/-- A stub whose every call raises `"Rate limit reached"`. -/
def rateLimitStub : Transport := fun _ => .error "Rate limit reached"

/-- A stub whose every call raises an invalid-API-key error. -/
def invalidKeyStub : Transport :=
  fun _ => .error "invalid_api_key - Incorrect API key provided"

/-- A stub whose every call raises the generic message `"boom"`. -/
def boomStub : Transport := fun _ => .error "boom"

/-- A stub raising `"boom"` on the first two calls and succeeding afterwards. -/
def boomTwiceThenOkStub : Transport :=
  fun n => if n < 2 then .error "boom" else .ok "done"

/-- A stub raising `"rate limit"` on the first two calls and succeeding
afterwards. -/
def rateLimitTwiceThenOkStub : Transport :=
  fun n => if n < 2 then .error "rate limit" else .ok "done"

/-- A stub raising `"insufficient_quota"` on call 0 and succeeding afterwards. -/
def quotaFirstThenOkStub : Transport :=
  fun n => if n = 0 then .error "insufficient_quota" else .ok "  looks right  "

/-- A stub whose every call succeeds. -/
def okStub : Transport := fun _ => .ok "fine"

/-! ### Helper lemmas -/

/-- The message raised by the wrapper's quota branch is itself matched by the
quota check the call sites perform on `str(e)`. -/
lemma callerQuotaCheck_quotaRaiseMsg : callerQuotaCheck quotaRaiseMsg = true := by
  decide

/-- The retries-exhausted message is not matched by the call sites' quota
check, so callers fall into their generic-error branch for it. -/
lemma callerQuotaCheck_failedRetriesMsg : callerQuotaCheck failedRetriesMsg = false := by
  decide

/-- A transport that fails every call with the same message that is neither
quota- nor rate-limit-classified drives the wrapper through all 3 attempts,
with a 1-second sleep after each of the first two failures, and the original
message is re-raised. -/
lemma safe_uniform_other (transport : Transport) (m : String)
    (hT : ∀ n, transport n = .error m)
    (hq : lowerHasQuota m = false) (hr : lowerHasRateLimit m = false)
    (start : Nat) :
    safe_chat_completion_create transport start = ⟨.error m, 3, [1, 1]⟩ := by
  simp [safe_chat_completion_create, safeGo, hT, hq, hr]

/-- Length of the evaluation loop output equals the number of input pairs. -/
lemma evalGo_length (transport : Transport) :
    ∀ (pairs : List QAPair) (start : Nat),
      (evalGo transport start pairs).length = pairs.length := by
  intro pairs
  induction pairs with
  | nil => intro start; rfl
  | cons p ps ih => intro start; simp [evalGo, ih]

/-- Each feedback record produced by `evalPair` carries its pair's question. -/
lemma evalPair_question (transport : Transport) (start : Nat) (p : QAPair) :
    (evalPair transport start p).1.question = p.question := by
  unfold evalPair
  split
  · rfl
  · rfl

/-- The evaluation loop preserves the questions, in order. -/
lemma evalGo_map_question (transport : Transport) :
    ∀ (pairs : List QAPair) (start : Nat),
      (evalGo transport start pairs).map Feedback.question =
        pairs.map QAPair.question := by
  intro pairs
  induction pairs with
  | nil => intro start; rfl
  | cons p ps ih =>
    intro start
    simp [evalGo, ih, evalPair_question]

/-- A pair whose answer strips to empty is answered by the fixed record and
consumes no transport call (the call counter is returned unchanged). -/
lemma evalPair_empty_answer (transport : Transport) (start : Nat) (p : QAPair)
    (h : pyStrip p.answer = "") :
    evalPair transport start p = (noAnswerFeedback p.question, start) := by
  simp [evalPair, h]

/-- Positionally: the `i`-th feedback record for an `i`-th pair whose answer
strips to empty is the fixed no-answer record. -/
lemma evalGo_getD_empty (transport : Transport) :
    ∀ (pairs : List QAPair) (start i : Nat), i < pairs.length →
      pyStrip (pairs.getD i ⟨"", ""⟩).answer = "" →
      (evalGo transport start pairs).getD i ⟨"", "", ""⟩ =
        noAnswerFeedback (pairs.getD i ⟨"", ""⟩).question := by
  intro pairs
  induction pairs with
  | nil => intro start i hi; simp at hi
  | cons p ps ih =>
    intro start i hi hempty
    cases i with
    | zero =>
      simp only [List.getD, List.get?, Option.getD] at hempty ⊢
      simp [evalGo, evalPair_empty_answer transport start p hempty]
    | succ j =>
      simp only [List.length_cons] at hi
      simp only [List.getD_cons_succ] at hempty ⊢
      simp only [evalGo, List.getD_cons_succ]
      exact ih _ j (Nat.lt_of_succ_lt_succ hi) hempty

/-! ### Claim C1 -/

/-- C1 counterexample: a transport stub that on every call raises an error
whose message contains the substring `"quota exceeded"` is NOT classified as a
quota failure by `safe_chat_completion_create` — the wrapper only matches
`"insufficient_quota"` and `"exceeded your current quota"` — so the underlying
call is attempted 3 times with two 1-second sleeps, not 1 time with no sleep. -/
theorem c1_quota_exceeded_words_retried :
    (safe_chat_completion_create alwaysQuotaWordsStub 0).calls = 3 ∧
    (safe_chat_completion_create alwaysQuotaWordsStub 0).sleeps = [1, 1] ∧
    (safe_chat_completion_create alwaysQuotaWordsStub 0).result =
      .error "quota exceeded" ∧
    (safe_chat_completion_create alwaysQuotaWordsStub 0).calls ≠ 1 :=
  ⟨rfl, rfl, rfl, by decide⟩

/-- C1 amended: when the first transport call raises a message containing
`"insufficient_quota"` or `"exceeded your current quota"` (case-insensitively,
the code's actual quota markers), the wrapper raises the fixed quota-exceeded
failure — whose message the call sites classify as quota — after exactly
1 attempt, with no retry and no sleep. -/
theorem c1_quota_marker_single_attempt (transport : Transport) (start : Nat)
    (m : String) (h1 : transport start = .error m)
    (h2 : lowerHasQuota m = true) :
    (safe_chat_completion_create transport start).result = .error quotaRaiseMsg ∧
    (safe_chat_completion_create transport start).calls = 1 ∧
    (safe_chat_completion_create transport start).sleeps = [] ∧
    callerQuotaCheck quotaRaiseMsg = true := by
  refine ⟨?_, ?_, ?_, callerQuotaCheck_quotaRaiseMsg⟩ <;>
    simp [safe_chat_completion_create, safeGo, h1, h2]

/-- C1 witness: the amended theorem evaluated on the `"insufficient_quota"`
stub. -/
theorem c1_quota_marker_single_attempt_witness :
    (safe_chat_completion_create insufficientQuotaStub 0).result =
      .error quotaRaiseMsg ∧
    (safe_chat_completion_create insufficientQuotaStub 0).calls = 1 ∧
    (safe_chat_completion_create insufficientQuotaStub 0).sleeps = [] ∧
    callerQuotaCheck quotaRaiseMsg = true :=
  c1_quota_marker_single_attempt insufficientQuotaStub 0 "insufficient_quota"
    rfl (by decide)

/-! ### Claim C2 -/

/-- The literal model output of claim C2. -/
def mcqModelOutput : String :=
  "Question 1: What is X?\nA) Alpha\nB) Beta\nC) Gamma\nD) Delta\nCorrect Answer: B"

/-- C2 counterexample: fed the literal six-line multiple-choice output, the
question-extraction loop of `generate_challenge_questions` produces the single
plain string `"Question 1: What is X?"` — the full line, not the prompt
`"What is X?"` — and the option lines and the `Correct Answer` line are
discarded; no record with an options mapping or a correct answer exists in the
code. -/
theorem c2_mcq_lines_not_structured :
    parseChallengeLines mcqModelOutput = ["Question 1: What is X?"] ∧
    "What is X?" ∉ parseChallengeLines mcqModelOutput := by
  constructor
  · rfl
  · intro hmem
    rw [show parseChallengeLines mcqModelOutput = ["Question 1: What is X?"]
          from rfl] at hmem
    simp only [List.mem_singleton] at hmem
    exact absurd hmem (by decide)

/-- C2 amended: fed the literal multiple-choice output, the extraction loop
produces exactly one question, the whole line `"Question 1: What is X?"`
(the code parses plain question strings and has no options or correct-answer
fields), and `generate_challenge_questions` then pads it with the first two
fixed padding questions. -/
theorem c2_mcq_single_plain_question :
    parseChallengeLines mcqModelOutput = ["Question 1: What is X?"] ∧
    generate_challenge_questions (fun _ => .ok mcqModelOutput) "doc" =
      ["Question 1: What is X?",
       "What are the main points discussed in this document?",
       "What conclusions can you draw from the information presented?"] :=
  ⟨rfl, rfl⟩

/-! ### Claim C3 -/

/-- C3: for every document text and every transport behaviour — success with
arbitrary model output (parsing to zero, fewer, or more than 3 questions) or
failure of any kind — `generate_challenge_questions` returns exactly
3 questions. -/
theorem c3_always_three_questions (transport : Transport)
    (documentText : String) :
    (generate_challenge_questions transport documentText).length = 3 := by
  unfold generate_challenge_questions
  split
  · dsimp only
    split
    · rename_i hlt
      simp only [List.length_take, List.length_append, challengePad,
        List.length_cons, List.length_nil] at *
      omega
    · rename_i hge
      simp only [List.length_take] at *
      omega
  · split
    · rfl
    · rfl

/-! ### Claim C4 -/

/-- C4: for every transport stub that on every call raises a rate-limit
message (a message matching the code's rate-limit test and not its quota
test), the wrapper makes exactly 3 underlying attempts and raises the
retries-exhausted failure — the raise site reached only when every retry was
consumed by the rate-limit branch — having slept 1, 2 and 4 seconds. -/
theorem c4_rate_limit_three_attempts (transport : Transport) (start : Nat)
    (h : ∀ n, ∃ m, transport n = .error m ∧
      lowerHasRateLimit m = true ∧ lowerHasQuota m = false) :
    (safe_chat_completion_create transport start).calls = 3 ∧
    (safe_chat_completion_create transport start).result =
      .error failedRetriesMsg ∧
    (safe_chat_completion_create transport start).sleeps = [1, 2, 4] := by
  obtain ⟨m0, e0, r0, q0⟩ := h start
  obtain ⟨m1, e1, r1, q1⟩ := h (start + 1)
  obtain ⟨m2, e2, r2, q2⟩ := h (start + 2)
  refine ⟨?_, ?_, ?_⟩ <;>
    simp [safe_chat_completion_create, safeGo, e0, e1, e2, r0, r1, r2, q0, q1, q2]

/-- C4 witness: the theorem evaluated on the `"Rate limit reached"` stub. -/
theorem c4_rate_limit_three_attempts_witness :
    (safe_chat_completion_create rateLimitStub 0).calls = 3 ∧
    (safe_chat_completion_create rateLimitStub 0).result =
      .error failedRetriesMsg ∧
    (safe_chat_completion_create rateLimitStub 0).sleeps = [1, 2, 4] :=
  c4_rate_limit_three_attempts rateLimitStub 0
    (fun _ => ⟨"Rate limit reached", rfl, by decide, by decide⟩)

/-! ### Claim C5 -/

/-- C5 counterexample: for non-rate-limit retried failures the backoff is NOT
`base * 2 ^ attempt` — the code sleeps a constant 1 second.  A transport
raising the generic `"boom"` on the first 2 calls and succeeding on the 3rd
yields sleeps `[1, 1]`, not `[1, 2]`. -/
theorem c5_other_backoff_constant :
    (safe_chat_completion_create boomTwiceThenOkStub 0).result = .ok "done" ∧
    (safe_chat_completion_create boomTwiceThenOkStub 0).sleeps = [1, 1] ∧
    (safe_chat_completion_create boomTwiceThenOkStub 0).sleeps ≠ [1, 2] :=
  ⟨rfl, rfl, by decide⟩

/-- C5 amended: only rate-limited failures back off exponentially — the sleep
after failed attempt `attempt` (0-based) is `2 ^ attempt` seconds — while
other retried failures sleep a constant 1 second.  In particular a transport
raising rate-limit messages on the first 2 calls and succeeding on the 3rd
returns the successful result after exactly 2 sleeps of 1s then 2s, whereas
with generic messages the 2 sleeps are 1s then 1s. -/
theorem c5_backoff_by_kind :
    (∀ (transport : Transport) (start : Nat) (m0 m1 v : String),
      transport start = .error m0 → transport (start + 1) = .error m1 →
      transport (start + 2) = .ok v →
      lowerHasRateLimit m0 = true → lowerHasQuota m0 = false →
      lowerHasRateLimit m1 = true → lowerHasQuota m1 = false →
      safe_chat_completion_create transport start = ⟨.ok v, 3, [1, 2]⟩) ∧
    (∀ (transport : Transport) (start : Nat) (m0 m1 v : String),
      transport start = .error m0 → transport (start + 1) = .error m1 →
      transport (start + 2) = .ok v →
      lowerHasRateLimit m0 = false → lowerHasQuota m0 = false →
      lowerHasRateLimit m1 = false → lowerHasQuota m1 = false →
      safe_chat_completion_create transport start = ⟨.ok v, 3, [1, 1]⟩) := by
  constructor
  · intro transport start m0 m1 v e0 e1 e2 r0 q0 r1 q1
    simp [safe_chat_completion_create, safeGo, e0, e1, e2, r0, q0, r1, q1]
  · intro transport start m0 m1 v e0 e1 e2 r0 q0 r1 q1
    simp [safe_chat_completion_create, safeGo, e0, e1, e2, r0, q0, r1, q1]

/-- C5 witness: both halves of the amended theorem evaluated on concrete
stubs. -/
theorem c5_backoff_by_kind_witness :
    safe_chat_completion_create rateLimitTwiceThenOkStub 0 = ⟨.ok "done", 3, [1, 2]⟩ ∧
    safe_chat_completion_create boomTwiceThenOkStub 0 = ⟨.ok "done", 3, [1, 1]⟩ :=
  ⟨c5_backoff_by_kind.1 rateLimitTwiceThenOkStub 0 "rate limit" "rate limit"
      "done" rfl rfl rfl (by decide) (by decide) (by decide) (by decide),
    c5_backoff_by_kind.2 boomTwiceThenOkStub 0 "boom" "boom" "done"
      rfl rfl rfl (by decide) (by decide) (by decide) (by decide)⟩

/-! ### Claim C6 -/

/-- C6 counterexample: the wrapper has no invalid-credential branch at all.  A
transport stub that on every call raises an invalid-API-key error falls into
the generic-error branch: 3 attempts, two 1-second sleeps, then the original
error is re-raised — not 1 attempt with no retry and no sleep. -/
theorem c6_invalid_key_is_retried :
    (safe_chat_completion_create invalidKeyStub 0).calls = 3 ∧
    (safe_chat_completion_create invalidKeyStub 0).sleeps = [1, 1] ∧
    (safe_chat_completion_create invalidKeyStub 0).result =
      .error "invalid_api_key - Incorrect API key provided" ∧
    (safe_chat_completion_create invalidKeyStub 0).calls ≠ 1 :=
  ⟨rfl, rfl, rfl, by decide⟩

/-- C6 amended: invalid-API-key failures are not specially classified; like
every failure matching neither the quota nor the rate-limit test they are
retried up to 3 total attempts, with a 1-second sleep after each of the first
two failures, and the error raised by the 3rd attempt is re-raised. -/
theorem c6_invalid_key_generic_path (transport : Transport) (start : Nat)
    (h : ∀ n, ∃ m, transport n = .error m ∧
      lowerHasQuota m = false ∧ lowerHasRateLimit m = false) :
    ∃ m2, transport (start + 2) = .error m2 ∧
      safe_chat_completion_create transport start = ⟨.error m2, 3, [1, 1]⟩ := by
  obtain ⟨m0, e0, q0, r0⟩ := h start
  obtain ⟨m1, e1, q1, r1⟩ := h (start + 1)
  obtain ⟨m2, e2, q2, r2⟩ := h (start + 2)
  refine ⟨m2, e2, ?_⟩
  simp [safe_chat_completion_create, safeGo, e0, e1, e2, q0, q1, q2, r0, r1, r2]

/-- C6 witness: the amended theorem evaluated on the invalid-API-key stub. -/
theorem c6_invalid_key_generic_path_witness :
    ∃ m2, invalidKeyStub (0 + 2) = .error m2 ∧
      safe_chat_completion_create invalidKeyStub 0 = ⟨.error m2, 3, [1, 1]⟩ :=
  c6_invalid_key_generic_path invalidKeyStub 0
    (fun _ => ⟨"invalid_api_key - Incorrect API key provided", rfl,
      by decide, by decide⟩)

/-! ### Claim C7 -/

/-- A stub whose every call raises `"Request timed out"`. -/
def timedOutStub : Transport := fun _ => .error "Request timed out"

/-- C7 counterexample: a failure that survives the retry budget does NOT
propagate out of the service operations.  With a transport that always raises
the generic `"boom"`, every operation catches the exhausted failure and
returns a substitute value (the operations are total, `String`- or
list-valued functions): an `"Error generating summary: ..."` string, an
`"Error processing your question: ..."` string, the generic 3-question
fallback list, and an `"Error evaluating this answer: ..."` feedback record. -/
theorem c7_other_failures_also_substituted :
    generate_summary boomStub "doc" = "Error generating summary: boom" ∧
    answer_question boomStub "doc" "Why?" = "Error processing your question: boom" ∧
    generate_challenge_questions boomStub "doc" = challengeFallbackGeneric ∧
    evaluate_user_answers boomStub [⟨"Why?", "ans"⟩] =
      [⟨"Why?", "ans", "Error evaluating this answer: boom"⟩] :=
  ⟨rfl, rfl, rfl, rfl⟩

/-- C7 amended: no failure kind propagates out of the service operations.
`QuotaExceeded` is replaced by the labelled quota fallbacks, and every other
failure kind that survives the retry budget is also caught and replaced by a
generic error-message result, per operation as stated. -/
theorem c7_no_failure_propagates (transport : Transport)
    (m doc q a : String) (hT : ∀ n, transport n = .error m)
    (hq : lowerHasQuota m = false) (hr : lowerHasRateLimit m = false)
    (hc : callerQuotaCheck m = false) (ha : ¬ pyStrip a = "") :
    generate_summary transport doc = "Error generating summary: " ++ m ∧
    answer_question transport doc q = "Error processing your question: " ++ m ∧
    generate_challenge_questions transport doc = challengeFallbackGeneric ∧
    evaluate_user_answers transport [⟨q, a⟩] =
      [⟨q, a, "Error evaluating this answer: " ++ m⟩] := by
  have h0 : safe_chat_completion_create transport 0 = ⟨.error m, 3, [1, 1]⟩ :=
    safe_uniform_other transport m hT hq hr 0
  refine ⟨?_, ?_, ?_, ?_⟩
  · simp [generate_summary, h0, hc]
  · simp [answer_question, h0, hc]
  · simp [generate_challenge_questions, h0, hc]
  · simp [evaluate_user_answers, evalGo, evalPair, h0, hc, ha]

/-- C7 witness: the amended theorem evaluated on the timed-out stub. -/
theorem c7_no_failure_propagates_witness :
    generate_summary timedOutStub "doc" =
      "Error generating summary: " ++ "Request timed out" ∧
    answer_question timedOutStub "doc" "Why?" =
      "Error processing your question: " ++ "Request timed out" ∧
    generate_challenge_questions timedOutStub "doc" = challengeFallbackGeneric ∧
    evaluate_user_answers timedOutStub [⟨"Why?", "ans"⟩] =
      [⟨"Why?", "ans", "Error evaluating this answer: " ++ "Request timed out"⟩] :=
  c7_no_failure_propagates timedOutStub "Request timed out" "doc" "Why?" "ans"
    (fun _ => rfl) (by decide) (by decide) (by decide) (by decide)

/-! ### Claim C8 -/

/-- C8: `evaluate_user_answers` returns exactly one feedback record per input
pair, in input order (same length, questions preserved positionally); a pair
whose answer strips to empty yields the fixed no-answer record, and the loop
iteration for such a pair returns the fixed record with the transport call
counter unchanged — the transport is never invoked for that pair (the record
and counter do not depend on the transport at all). -/
theorem c8_one_record_per_pair (transport : Transport) (pairs : List QAPair) :
    (evaluate_user_answers transport pairs).length = pairs.length ∧
    (evaluate_user_answers transport pairs).map Feedback.question =
      pairs.map QAPair.question ∧
    (∀ i, i < pairs.length → pyStrip (pairs.getD i ⟨"", ""⟩).answer = "" →
      (evaluate_user_answers transport pairs).getD i ⟨"", "", ""⟩ =
        noAnswerFeedback (pairs.getD i ⟨"", ""⟩).question) ∧
    (∀ (p : QAPair) (s : Nat), pyStrip p.answer = "" →
      evalPair transport s p = (noAnswerFeedback p.question, s)) :=
  ⟨evalGo_length transport pairs 0, evalGo_map_question transport pairs 0,
   fun i hi he => evalGo_getD_empty transport pairs 0 i hi he,
   fun p s hp => evalPair_empty_answer transport s p hp⟩

/-- C8 witness: the theorem evaluated on a whitespace-only answer with the
always-successful stub. -/
theorem c8_one_record_per_pair_witness :
    (evaluate_user_answers okStub [⟨"q", " "⟩]).getD 0 ⟨"", "", ""⟩ =
      noAnswerFeedback (([⟨"q", " "⟩] : List QAPair).getD 0 ⟨"", ""⟩).question ∧
    evalPair okStub 7 ⟨"q2", ""⟩ = (noAnswerFeedback "q2", 7) :=
  ⟨(c8_one_record_per_pair okStub [⟨"q", " "⟩]).2.2.1 0 (by decide) (by decide),
   (c8_one_record_per_pair okStub [⟨"q", " "⟩]).2.2.2 ⟨"q2", ""⟩ 7 rfl⟩

/-! ### Claim C9 -/

/-- C9: when the evaluation of one pair hits a quota-classified failure, the
fixed apologetic quota fallback (instantiated with that pair's answer) is
substituted for that pair only, and the loop continues: the following pair
still receives its own feedback record from its own transport call. -/
theorem c9_quota_pair_substituted (transport : Transport)
    (m v q1 a1 q2 a2 : String) (h0 : transport 0 = .error m)
    (hm : lowerHasQuota m = true) (h1 : transport 1 = .ok v)
    (ha1 : ¬ pyStrip a1 = "") (ha2 : ¬ pyStrip a2 = "") :
    evaluate_user_answers transport [⟨q1, a1⟩, ⟨q2, a2⟩] =
      [⟨q1, a1, evalQuotaFallback a1⟩, ⟨q2, a2, pyStrip v⟩] := by
  have hs0 : safe_chat_completion_create transport 0 = ⟨.error quotaRaiseMsg, 1, []⟩ := by
    simp [safe_chat_completion_create, safeGo, h0, hm]
  have hs1 : safe_chat_completion_create transport 1 = ⟨.ok v, 1, []⟩ := by
    simp [safe_chat_completion_create, safeGo, h1]
  simp [evaluate_user_answers, evalGo, evalPair, hs0, hs1, ha1, ha2,
    callerQuotaCheck_quotaRaiseMsg]

/-- C9 witness: the theorem evaluated on the stub that quota-fails call 0 and
succeeds on call 1. -/
theorem c9_quota_pair_substituted_witness :
    evaluate_user_answers quotaFirstThenOkStub [⟨"q1", "a1"⟩, ⟨"q2", "a2"⟩] =
      [⟨"q1", "a1", evalQuotaFallback "a1"⟩,
       ⟨"q2", "a2", pyStrip "  looks right  "⟩] :=
  c9_quota_pair_substituted quotaFirstThenOkStub "insufficient_quota"
    "  looks right  " "q1" "a1" "q2" "a2" rfl (by decide) rfl
    (by decide) (by decide)

/-! ### Claim C10 -/

/-- C10: for a pair whose answer is empty or whitespace-only, the feedback
record's `user_answer` field is the literal `"No answer provided"`, which is
never the answer the caller supplied (a whitespace-only answer cannot equal
that literal). -/
theorem c10_no_answer_not_echoed (transport : Transport) (s : Nat)
    (q a : String) (h : pyStrip a = "") :
    (evalPair transport s ⟨q, a⟩).1.user_answer = "No answer provided" ∧
    (evalPair transport s ⟨q, a⟩).1.user_answer ≠ a := by
  have he : evalPair transport s ⟨q, a⟩ = (noAnswerFeedback q, s) :=
    evalPair_empty_answer transport s ⟨q, a⟩ h
  refine ⟨?_, ?_⟩
  · rw [he]
    rfl
  · rw [he]
    simp only [noAnswerFeedback]
    intro heq
    rw [← heq] at h
    exact absurd h (by decide)

/-- C10 witness: the theorem evaluated on a whitespace-only answer. -/
theorem c10_no_answer_not_echoed_witness :
    (evalPair okStub 3 ⟨"q", "  "⟩).1.user_answer = "No answer provided" ∧
    (evalPair okStub 3 ⟨"q", "  "⟩).1.user_answer ≠ "  " :=
  c10_no_answer_not_echoed okStub 3 "q" "  " (by decide)

end QaLogic
